import Mathlib

/-!
Verification development for the concurrent HTTP load tester
(`src/python/main.py`).

The program spawns worker threads; each worker issues a fixed number of
sequential HTTP POST requests, timing each one, and records the outcome in
shared global metrics (`all_response_times_ns`, `success_count`,
`failure_count`, `total_duration_ns_overall`) under `metrics_lock`.  After
all workers join, `main` computes a run summary (total requests, requests
per second, min/avg/max latency in milliseconds).

We embed the per-request handling of `worker` (main.py lines 53-94), the
summary computation of `main` (lines 155-172), and the payload-acquisition
phase of `main` (lines 105-121).  Latencies are nanosecond counts (`Nat`,
as returned by `time.perf_counter_ns`); derived statistics use `ℚ` in
place of Python floats.
-/

/-- The result of one request iteration in `worker`, as seen by its
`try`/`except` structure: either `session.post` returns a response with
a status code and the elapsed time is measured (lines 58-61), or it raises
a `requests.exceptions.RequestException` and the elapsed time is measured
in the handler (lines 77-80), or some other exception is raised and caught
by the generic `except Exception` handler (line 89). -/
inductive HttpResult where
  | ok (statusCode : Nat) (elapsedNs : Nat)
  | requestException (elapsedNs : Nat)
  | otherException
deriving DecidableEq, Repr

/-- The shared global metrics of main.py lines 36-39. -/
structure Metrics where
  all_response_times_ns : List Nat
  success_count : Nat
  failure_count : Nat
  total_duration_ns_overall : Nat
deriving DecidableEq, Repr

/-- Initial state of the global metrics (main.py lines 36-39). -/
def initMetrics : Metrics := ⟨[], 0, 0, 0⟩

/-- One iteration of the per-request handling in `worker`
(main.py lines 57-94).  On a completed HTTP call (lines 57-75): append the
elapsed time, add it to `total_duration_ns_overall`, then increment
`success_count` if the status code is 200 or 201, else `failure_count`.
On `requests.exceptions.RequestException` (lines 77-88): append the elapsed
time and increment `failure_count`.  On any other exception (lines 89-94):
increment `failure_count` only. -/
def handleResult (m : Metrics) (r : HttpResult) : Metrics :=
  match r with
  | .ok statusCode elapsedNs =>
      { m with
        all_response_times_ns := m.all_response_times_ns ++ [elapsedNs]
        total_duration_ns_overall := m.total_duration_ns_overall + elapsedNs
        success_count :=
          if statusCode = 200 ∨ statusCode = 201 then m.success_count + 1
          else m.success_count
        failure_count :=
          if statusCode = 200 ∨ statusCode = 201 then m.failure_count
          else m.failure_count + 1 }
  | .requestException elapsedNs =>
      { m with
        all_response_times_ns := m.all_response_times_ns ++ [elapsedNs]
        failure_count := m.failure_count + 1 }
  | .otherException =>
      { m with failure_count := m.failure_count + 1 }

/-- A worker's loop (main.py lines 53-94): every iteration is handled by one
of the three branches of `handleResult` and the loop then proceeds to the
next iteration; this is a total fold, reflecting that all per-request errors
are caught inside the loop body. -/
def workerRun (m : Metrics) (rs : List HttpResult) : Metrics :=
  rs.foldl handleResult m

/-- The latency samples one request iteration contributes to
`all_response_times_ns`: one sample for a completed HTTP call, one for a
`RequestException`, none for the generic exception branch. -/
def recordedNs : HttpResult → List Nat
  | .ok _ elapsedNs => [elapsedNs]
  | .requestException elapsedNs => [elapsedNs]
  | .otherException => []

/-- Python `min` on a nonempty list of ints (main.py line 169); `0` for the
empty list, which the source never reaches (guarded by line 168). -/
def listMinNat : List Nat → Nat
  | [] => 0
  | x :: xs => xs.foldl Nat.min x

/-- Python `max` on a nonempty list of ints (main.py line 170); `0` for the
empty list, which the source never reaches (guarded by line 168). -/
def listMaxNat : List Nat → Nat
  | [] => 0
  | x :: xs => xs.foldl Nat.max x

/-- Sum of a list of nanosecond samples, as a rational. -/
def natListSumQ (l : List Nat) : ℚ :=
  (l.map (fun n => (n : ℚ))).sum

/-- `statistics.mean` on a list of ints (main.py line 172), idealized over
`ℚ`: the sum divided by the length. -/
def meanQ (l : List Nat) : ℚ :=
  natListSumQ l / (l.length : ℚ)

/-- The quantities reported by `main` after the run
(main.py lines 155-188). -/
structure RunSummary where
  actual_total_requests : Nat
  rps : ℚ
  min_ms : ℚ
  max_ms : ℚ
  avg_ms : ℚ
deriving Repr

/-- The summary computation of `main` (main.py lines 155-172):
`actual_total_requests = success_count + failure_count`;
`rps = actual_total_requests / overall_duration_s` when the duration and the
total are both positive, else `0`; min/max/avg over
`all_response_times_ns` divided by 1,000,000 when the list is nonempty,
else `0`. -/
def summarize (m : Metrics) (overall_duration_s : ℚ) : RunSummary :=
  { actual_total_requests := m.success_count + m.failure_count
    rps :=
      if 0 < overall_duration_s ∧ 0 < m.success_count + m.failure_count then
        ((m.success_count + m.failure_count : ℕ) : ℚ) / overall_duration_s
      else 0
    min_ms :=
      if m.all_response_times_ns = [] then 0
      else (listMinNat m.all_response_times_ns : ℚ) / 1000000
    max_ms :=
      if m.all_response_times_ns = [] then 0
      else (listMaxNat m.all_response_times_ns : ℚ) / 1000000
    avg_ms :=
      if m.all_response_times_ns = [] then 0
      else meanQ m.all_response_times_ns / 1000000 }

/-- Outcome of the payload-acquisition phase of `main`
(main.py lines 105-121): the file may be absent (the `os.path.exists`
check fails), readable with some contents, missing at `open` time
(`FileNotFoundError`), or unreadable for another reason (the generic
`except Exception` at line 119). -/
inductive PayloadRead where
  | absent
  | content (bytes : List Nat)
  | fileNotFound
  | readError
deriving DecidableEq, Repr

/-- The payload-acquisition phase of `main` (main.py lines 105-121):
an absent file yields an empty payload with a warning; a readable file
yields its contents; `FileNotFoundError` or any other read error makes
`main` return immediately (`none`). -/
def mainPayload : PayloadRead → Option (List Nat)
  | .absent => some []
  | .content bytes => some bytes
  | .fileNotFound => none
  | .readError => none

/-- `main` after configuration (main.py lines 105-188), abstracted over the
payload read outcome, a serialization of all request outcomes recorded by
the workers (every mutation of the shared metrics happens under
`metrics_lock`, so the concurrent run corresponds to some such
serialization), and the measured wall-clock duration.  If payload
acquisition fails, `main` returns before any worker thread is started and
before any metrics or summary exist (`none`); otherwise the workers run and
the summary is computed from the final metrics. -/
def mainRun (pr : PayloadRead) (events : List HttpResult)
    (overall_duration_s : ℚ) : Option (Metrics × RunSummary) :=
  match mainPayload pr with
  | none => none
  | some _payload =>
      let m := events.foldl handleResult initMetrics
      some (m, summarize m overall_duration_s)

/-! ## Helper lemmas -/

/-- Each branch of the per-request handling increments exactly one of the
two counters. -/
lemma handleResult_counts (m : Metrics) (r : HttpResult) :
    (handleResult m r).success_count + (handleResult m r).failure_count
      = m.success_count + m.failure_count + 1 := by
  cases r with
  | ok s t => simp only [handleResult]; split <;> omega
  | requestException t => simp [handleResult]; omega
  | otherException => simp [handleResult]; omega

/-- Each branch of the per-request handling appends exactly the samples
given by `recordedNs`. -/
lemma handleResult_samples (m : Metrics) (r : HttpResult) :
    (handleResult m r).all_response_times_ns
      = m.all_response_times_ns ++ recordedNs r := by
  cases r <;> simp [handleResult, recordedNs]

/-- Folding any serialization of recorded outcomes adds one counted outcome
per event. -/
lemma workerRun_counts (rs : List HttpResult) (m : Metrics) :
    (workerRun m rs).success_count + (workerRun m rs).failure_count
      = m.success_count + m.failure_count + rs.length := by
  induction rs generalizing m with
  | nil => simp [workerRun]
  | cons r rs ih =>
      have h1 : workerRun m (r :: rs) = workerRun (handleResult m r) rs := rfl
      rw [h1, ih, handleResult_counts]
      simp [List.length_cons]
      omega

/-- The samples accumulated by a fold of recorded outcomes are exactly the
concatenation of each event's contributed samples. -/
lemma workerRun_samples (rs : List HttpResult) (m : Metrics) :
    (workerRun m rs).all_response_times_ns
      = m.all_response_times_ns ++ (rs.map recordedNs).flatten := by
  induction rs generalizing m with
  | nil => simp [workerRun]
  | cons r rs ih =>
      have h1 : workerRun m (r :: rs) = workerRun (handleResult m r) rs := rfl
      rw [h1, ih, handleResult_samples]
      simp

/-- Each event contributes at most one sample. -/
lemma recordedNs_length_le (r : HttpResult) : (recordedNs r).length ≤ 1 := by
  cases r <;> simp [recordedNs]

/-- An event other than the generic-exception branch contributes exactly
one sample. -/
lemma recordedNs_length_eq (r : HttpResult) (h : r ≠ HttpResult.otherException) :
    (recordedNs r).length = 1 := by
  cases r <;> simp [recordedNs] at h ⊢

/-- The flattened sample lists are no longer than the event list. -/
lemma flatten_recorded_length_le (rs : List HttpResult) :
    ((rs.map recordedNs).flatten).length ≤ rs.length := by
  induction rs with
  | nil => simp
  | cons r rs ih =>
      simp only [List.map_cons, List.flatten_cons, List.length_append,
        List.length_cons]
      have := recordedNs_length_le r
      omega

/-- When no event takes the generic-exception branch, the flattened sample
lists have the same length as the event list. -/
lemma flatten_recorded_length_eq (rs : List HttpResult)
    (h : ∀ r ∈ rs, r ≠ HttpResult.otherException) :
    ((rs.map recordedNs).flatten).length = rs.length := by
  induction rs with
  | nil => simp
  | cons r rs ih =>
      simp only [List.map_cons, List.flatten_cons, List.length_append,
        List.length_cons]
      have h1 := recordedNs_length_eq r (h r (List.mem_cons_self r rs))
      have h2 := ih (fun x hx => h x (List.mem_cons_of_mem r hx))
      omega

/-- A fold of `Nat.min` never exceeds its initial accumulator. -/
lemma foldl_min_le_init (l : List Nat) (a : Nat) : l.foldl Nat.min a ≤ a := by
  induction l generalizing a with
  | nil => simp
  | cons x xs ih =>
      have h1 : (x :: xs).foldl Nat.min a = xs.foldl Nat.min (Nat.min a x) := rfl
      rw [h1]
      exact le_trans (ih (Nat.min a x)) (Nat.min_le_left a x)

/-- A fold of `Nat.min` is bounded by every element of the list. -/
lemma foldl_min_le_mem (l : List Nat) (x : Nat) (hx : x ∈ l) :
    ∀ a, l.foldl Nat.min a ≤ x := by
  induction l with
  | nil => cases hx
  | cons y ys ih =>
      intro a
      rcases List.mem_cons.mp hx with h | h
      · subst h
        exact le_trans (foldl_min_le_init ys (Nat.min a x)) (Nat.min_le_right a x)
      · exact ih h (Nat.min a y)

/-- `listMinNat` is a lower bound of the list. -/
lemma listMinNat_le_mem (l : List Nat) (x : Nat) (hx : x ∈ l) :
    listMinNat l ≤ x := by
  cases l with
  | nil => cases hx
  | cons y ys =>
      rcases List.mem_cons.mp hx with h | h
      · subst h
        exact foldl_min_le_init ys x
      · exact foldl_min_le_mem ys x h y

/-- A fold of `Nat.max` is at least its initial accumulator. -/
lemma init_le_foldl_max (l : List Nat) (a : Nat) : a ≤ l.foldl Nat.max a := by
  induction l generalizing a with
  | nil => simp
  | cons x xs ih =>
      have h1 : (x :: xs).foldl Nat.max a = xs.foldl Nat.max (Nat.max a x) := rfl
      rw [h1]
      exact le_trans (Nat.le_max_left a x) (ih (Nat.max a x))

/-- A fold of `Nat.max` bounds every element of the list. -/
lemma mem_le_foldl_max (l : List Nat) (x : Nat) (hx : x ∈ l) :
    ∀ a, x ≤ l.foldl Nat.max a := by
  induction l with
  | nil => cases hx
  | cons y ys ih =>
      intro a
      rcases List.mem_cons.mp hx with h | h
      · subst h
        exact le_trans (Nat.le_max_right a x) (init_le_foldl_max ys (Nat.max a x))
      · exact ih h (Nat.max a y)

/-- `listMaxNat` is an upper bound of the list. -/
lemma mem_le_listMaxNat (l : List Nat) (x : Nat) (hx : x ∈ l) :
    x ≤ listMaxNat l := by
  cases l with
  | nil => cases hx
  | cons y ys =>
      rcases List.mem_cons.mp hx with h | h
      · subst h
        exact init_le_foldl_max ys x
      · exact mem_le_foldl_max ys x h y

/-- Unfolding lemma for `natListSumQ` on a cons cell. -/
lemma natListSumQ_cons (x : Nat) (xs : List Nat) :
    natListSumQ (x :: xs) = (x : ℚ) + natListSumQ xs := by
  simp [natListSumQ]

/-- A uniform lower bound on the elements bounds the sum from below. -/
lemma mul_length_le_natListSumQ (c : ℚ) (l : List Nat)
    (h : ∀ x ∈ l, c ≤ (x : ℚ)) :
    c * (l.length : ℚ) ≤ natListSumQ l := by
  induction l with
  | nil => simp [natListSumQ]
  | cons x xs ih =>
      have hx := h x (List.mem_cons_self x xs)
      have hxs := ih (fun y hy => h y (List.mem_cons_of_mem x hy))
      rw [natListSumQ_cons, List.length_cons]
      push_cast
      nlinarith [hx, hxs]

/-- A uniform upper bound on the elements bounds the sum from above. -/
lemma natListSumQ_le_mul_length (c : ℚ) (l : List Nat)
    (h : ∀ x ∈ l, (x : ℚ) ≤ c) :
    natListSumQ l ≤ c * (l.length : ℚ) := by
  induction l with
  | nil => simp [natListSumQ]
  | cons x xs ih =>
      have hx := h x (List.mem_cons_self x xs)
      have hxs := ih (fun y hy => h y (List.mem_cons_of_mem x hy))
      rw [natListSumQ_cons, List.length_cons]
      push_cast
      nlinarith [hx, hxs]

/-! ## Claim theorems -/

/-- C1 (counterexample): the claim that every branch of the per-request
handling appends exactly one latency sample fails on the generic-exception
branch (main.py lines 89-94): after recording one `otherException` outcome
from the initial state, the aggregator holds `0` latency samples but
`success_count + failure_count = 1`. -/
theorem samples_ne_counts_on_unexpected_error :
    (handleResult initMetrics HttpResult.otherException).all_response_times_ns.length
      ≠ (handleResult initMetrics HttpResult.otherException).success_count
        + (handleResult initMetrics HttpResult.otherException).failure_count := by
  decide

/-- C1 (amended): after a run over any serialization of recorded outcomes,
`success_count + failure_count` equals the number of requests attempted;
the number of latency samples is at most that, with equality whenever no
request hits the generic-exception branch — the successful-completion and
transport-failure branches each append exactly one latency sample, but the
generic-exception branch (main.py lines 89-94) increments `failure_count`
without appending a sample. -/
theorem samples_counts_accounting (rs : List HttpResult) :
    (workerRun initMetrics rs).success_count
        + (workerRun initMetrics rs).failure_count = rs.length
    ∧ (workerRun initMetrics rs).all_response_times_ns.length ≤ rs.length
    ∧ ((∀ r ∈ rs, r ≠ HttpResult.otherException) →
        (workerRun initMetrics rs).all_response_times_ns.length = rs.length) := by
  refine ⟨?_, ?_, ?_⟩
  · have h := workerRun_counts rs initMetrics
    simpa [initMetrics] using h
  · rw [workerRun_samples]
    simpa [initMetrics] using flatten_recorded_length_le rs
  · intro h
    rw [workerRun_samples]
    simpa [initMetrics] using flatten_recorded_length_eq rs h

/-- Witness for C1 (amended) at a concrete run: one successful request and
one transport failure give two counted outcomes and two latency samples. -/
theorem samples_counts_accounting_witness :
    (workerRun initMetrics [HttpResult.ok 200 5, HttpResult.requestException 7]).success_count
        + (workerRun initMetrics [HttpResult.ok 200 5, HttpResult.requestException 7]).failure_count = 2
    ∧ (workerRun initMetrics
        [HttpResult.ok 200 5, HttpResult.requestException 7]).all_response_times_ns.length = 2 := by
  have h := samples_counts_accounting [HttpResult.ok 200 5, HttpResult.requestException 7]
  exact ⟨h.1, h.2.2 (by decide)⟩

/-- C2: a completed HTTP response increments `success_count` exactly when
its status code is 200 or 201 and increments `failure_count` exactly when
it is neither; a transport error increments `failure_count` and leaves
`success_count` unchanged (main.py lines 67-70 and 77-85). -/
theorem classification_success_iff (m : Metrics) (s t u : Nat) :
    ((handleResult m (HttpResult.ok s t)).success_count = m.success_count + 1
        ↔ (s = 200 ∨ s = 201))
    ∧ ((handleResult m (HttpResult.ok s t)).failure_count = m.failure_count + 1
        ↔ ¬(s = 200 ∨ s = 201))
    ∧ (handleResult m (HttpResult.requestException u)).failure_count
        = m.failure_count + 1
    ∧ (handleResult m (HttpResult.requestException u)).success_count
        = m.success_count := by
  by_cases h : s = 200 ∨ s = 201 <;> simp [handleResult, h]

/-- C3: on a transport-level error (`requests.exceptions.RequestException`,
main.py lines 77-88) the worker appends the elapsed latency measured from
the recorded start time, increments `failure_count`, leaves `success_count`
unchanged, and the loop proceeds to process all remaining iterations. -/
theorem transport_failure_records_and_continues (m : Metrics) (t : Nat)
    (pre post : List HttpResult) :
    (handleResult m (HttpResult.requestException t)).all_response_times_ns
        = m.all_response_times_ns ++ [t]
    ∧ (handleResult m (HttpResult.requestException t)).failure_count
        = m.failure_count + 1
    ∧ (handleResult m (HttpResult.requestException t)).success_count
        = m.success_count
    ∧ workerRun m (pre ++ HttpResult.requestException t :: post)
        = workerRun (handleResult (workerRun m pre)
            (HttpResult.requestException t)) post := by
  refine ⟨rfl, rfl, rfl, ?_⟩
  simp [workerRun, List.foldl_append]

/-- C4: `requests_per_second` equals
`(success_count + failure_count) / overall_duration_s` when the duration
and the total are both positive, and `0` otherwise (main.py
lines 160-162). -/
theorem rps_formula (m : Metrics) (dur : ℚ) :
    (0 < dur → 0 < m.success_count + m.failure_count →
        (summarize m dur).rps
          = ((m.success_count + m.failure_count : ℕ) : ℚ) / dur)
    ∧ (¬(0 < dur ∧ 0 < m.success_count + m.failure_count) →
        (summarize m dur).rps = 0) := by
  constructor
  · intro h1 h2
    simp only [summarize]
    rw [if_pos ⟨h1, h2⟩]
  · intro h
    simp only [summarize]
    rw [if_neg h]

/-- Witness for C4 at a concrete state: 3 successes and 4 failures over a
2-second run give 7/2 requests per second. -/
theorem rps_formula_witness :
    (summarize (Metrics.mk [] 3 4 0) 2).rps = 7 / 2 := by
  have h := (rps_formula (Metrics.mk [] 3 4 0) 2).1 (by norm_num) (by norm_num)
  norm_num at h
  exact h

/-- C5 (counterexample): the claim that zero recorded latency samples force
`requests_per_second = 0` fails, because `rps` is computed from
`success_count + failure_count` (main.py lines 155-162), not from the
sample list: one generic-exception outcome leaves the sample list empty yet
counts one failure, so with duration 1 the reported rate is 1, not 0. -/
theorem rps_nonzero_with_no_samples :
    (handleResult initMetrics HttpResult.otherException).all_response_times_ns = []
    ∧ (summarize (handleResult initMetrics HttpResult.otherException) 1).rps ≠ 0 := by
  constructor
  · rfl
  · norm_num [summarize, handleResult, initMetrics]

/-- C5 (amended): with zero recorded latency samples the summary yields
`min = max = avg = 0`; `requests_per_second` is additionally `0` whenever
no outcome was counted (`success_count + failure_count = 0`), as on the
initial aggregator state. -/
theorem summary_zero_samples (m : Metrics) (dur : ℚ)
    (h : m.all_response_times_ns = []) :
    (summarize m dur).min_ms = 0
    ∧ (summarize m dur).max_ms = 0
    ∧ (summarize m dur).avg_ms = 0
    ∧ (m.success_count + m.failure_count = 0 → (summarize m dur).rps = 0) := by
  refine ⟨?_, ?_, ?_, ?_⟩
  · simp [summarize, h]
  · simp [summarize, h]
  · simp [summarize, h]
  · intro h0
    simp [summarize, h0]

/-- Witness for C5 (amended) on the initial aggregator state. -/
theorem summary_zero_samples_witness :
    (summarize initMetrics 5).min_ms = 0
    ∧ (summarize initMetrics 5).max_ms = 0
    ∧ (summarize initMetrics 5).avg_ms = 0
    ∧ (summarize initMetrics 5).rps = 0 := by
  have h := summary_zero_samples initMetrics 5 rfl
  exact ⟨h.1, h.2.1, h.2.2.1, h.2.2.2 rfl⟩

/-- C6: with exactly one recorded latency sample `L` (in nanoseconds), the
summary yields `min = max = avg = L / 1,000,000` milliseconds (main.py
lines 168-172). -/
theorem summary_single_sample (m : Metrics) (dur : ℚ) (L : Nat)
    (h : m.all_response_times_ns = [L]) :
    (summarize m dur).min_ms = (L : ℚ) / 1000000
    ∧ (summarize m dur).max_ms = (L : ℚ) / 1000000
    ∧ (summarize m dur).avg_ms = (L : ℚ) / 1000000 := by
  have hne : m.all_response_times_ns ≠ [] := by
    rw [h]; exact List.cons_ne_nil L []
  refine ⟨?_, ?_, ?_⟩ <;>
    · simp only [summarize]
      rw [if_neg hne, h]
      simp [listMinNat, listMaxNat, meanQ, natListSumQ]

/-- Witness for C6 at a concrete state with the single sample 5 ns. -/
theorem summary_single_sample_witness :
    (summarize (Metrics.mk [5] 1 0 5) 1).min_ms = (5 : ℚ) / 1000000
    ∧ (summarize (Metrics.mk [5] 1 0 5) 1).max_ms = (5 : ℚ) / 1000000
    ∧ (summarize (Metrics.mk [5] 1 0 5) 1).avg_ms = (5 : ℚ) / 1000000 :=
  summary_single_sample (Metrics.mk [5] 1 0 5) 1 5 rfl

/-- C7: the sample list accumulated by a run is exactly the concatenation
of the samples contributed per request — including the latencies of
transport failures, which `recordedNs` maps to a sample just like
successful completions (main.py lines 81-85) — every transport failure's
latency appears in the list, and the reported average is the arithmetic
mean of this full list divided by 1,000,000 (main.py line 172), not the
mean over successful requests only. -/
theorem avg_includes_failures (rs : List HttpResult) (dur : ℚ)
    (h : (rs.map recordedNs).flatten ≠ []) :
    (workerRun initMetrics rs).all_response_times_ns = (rs.map recordedNs).flatten
    ∧ (∀ u, HttpResult.requestException u ∈ rs →
        u ∈ (workerRun initMetrics rs).all_response_times_ns)
    ∧ (summarize (workerRun initMetrics rs) dur).avg_ms
        = meanQ ((rs.map recordedNs).flatten) / 1000000 := by
  have hs : (workerRun initMetrics rs).all_response_times_ns
      = (rs.map recordedNs).flatten := by
    rw [workerRun_samples]
    simp [initMetrics]
  refine ⟨hs, ?_, ?_⟩
  · intro u hu
    rw [hs]
    exact List.mem_flatten.mpr ⟨recordedNs (HttpResult.requestException u),
      List.mem_map_of_mem recordedNs hu, by simp [recordedNs]⟩
  · have hne : (workerRun initMetrics rs).all_response_times_ns ≠ [] := by
      rw [hs]; exact h
    simp only [summarize]
    rw [if_neg hne, hs]

/-- Witness for C7 at a concrete run: a success taking 2 ns and a transport
failure taking 4 ns average to 3 ns, i.e. 3/1,000,000 ms. -/
theorem avg_includes_failures_witness :
    (summarize (workerRun initMetrics
        [HttpResult.ok 200 2, HttpResult.requestException 4]) 1).avg_ms
      = 3 / 1000000 := by
  have h := avg_includes_failures
    [HttpResult.ok 200 2, HttpResult.requestException 4] 1 (by decide)
  rw [h.2.2]
  norm_num [meanQ, natListSumQ, recordedNs]

/-- C8: if reading the payload file fails for a reason other than simple
absence (the generic `except Exception` at main.py line 119), `main`
returns before launching any worker: no metrics are produced and no
summary is computed. -/
theorem payload_read_error_aborts (events : List HttpResult) (dur : ℚ) :
    mainRun PayloadRead.readError events dur = none := rfl

/-- C9: every mutation of the shared counters happens inside a
`metrics_lock` block that increments exactly one of the two counters, so
the concurrent run corresponds to some serialization of the recorded
outcomes; for every such serialization of N outcomes,
`success_count + failure_count` afterwards equals exactly N — no outcome
is lost or double-counted under any interleaving. -/
theorem record_counts_exact (rs : List HttpResult) :
    (rs.foldl handleResult initMetrics).success_count
      + (rs.foldl handleResult initMetrics).failure_count = rs.length := by
  have h := workerRun_counts rs initMetrics
  simpa [workerRun, initMetrics] using h

/-- C10: for a nonempty sample list the summary satisfies
`min_ms ≤ avg_ms ≤ max_ms`, all computed from the same list with the same
nanosecond-to-millisecond scaling (main.py lines 168-172). -/
theorem min_le_avg_le_max (m : Metrics) (dur : ℚ)
    (h : m.all_response_times_ns ≠ []) :
    (summarize m dur).min_ms ≤ (summarize m dur).avg_ms
    ∧ (summarize m dur).avg_ms ≤ (summarize m dur).max_ms := by
  have hlen : 0 < (m.all_response_times_ns.length : ℚ) := by
    have h1 : 0 < m.all_response_times_ns.length := List.length_pos.mpr h
    exact_mod_cast h1
  have hmin : (listMinNat m.all_response_times_ns : ℚ)
      ≤ meanQ m.all_response_times_ns := by
    rw [meanQ, le_div_iff₀ hlen]
    exact mul_length_le_natListSumQ _ _
      (fun x hx => Nat.cast_le.mpr (listMinNat_le_mem _ x hx))
  have hmax : meanQ m.all_response_times_ns
      ≤ (listMaxNat m.all_response_times_ns : ℚ) := by
    rw [meanQ, div_le_iff₀ hlen]
    exact natListSumQ_le_mul_length _ _
      (fun x hx => Nat.cast_le.mpr (mem_le_listMaxNat _ x hx))
  constructor
  · simp only [summarize]
    rw [if_neg h, if_neg h]
    gcongr
  · simp only [summarize]
    rw [if_neg h, if_neg h]
    gcongr

/-- Witness for C10 at a concrete state: samples 1 and 3 give
min 1/1,000,000 ≤ avg 2/1,000,000 ≤ max 3/1,000,000. -/
theorem min_le_avg_le_max_witness :
    (summarize (Metrics.mk [1, 3] 2 0 4) 1).min_ms
        ≤ (summarize (Metrics.mk [1, 3] 2 0 4) 1).avg_ms
    ∧ (summarize (Metrics.mk [1, 3] 2 0 4) 1).avg_ms
        ≤ (summarize (Metrics.mk [1, 3] 2 0 4) 1).max_ms :=
  min_le_avg_le_max (Metrics.mk [1, 3] 2 0 4) 1 (by decide)
